import Mathlib

/-!
Verification of `pkg/kubebench/scanner.go` from the starboard repository.

The file embeds the two functions of the source file as Lean definitions:

* `prepareKubeBenchJob`, a pure builder of the Kubernetes Job descriptor
  that runs the kube-bench container (modelled field by field after the
  Go struct literal);
* `Scanner.scan`, the `Scan` workflow.  Its external collaborators
  (the job runner, the pod manager, the converter, the node lookup) are
  injected through a `ScanEnv` record of outcomes, and the workflow is
  embedded as a function from that record to the returned triple
  `(report, node, err)` together with the ordered list of cluster calls
  it performed (`trace`), so that temporal claims about deletion and
  stream closing become statements about that list.

The two nondeterministic inputs of the Go code — the freshly drawn UUID
of `uuid.New().String()` and the configured `ScanJobTimeout` — are
explicit parameters `u` and `timeout`.
-/

namespace Starboard

/-- Deletion propagation policies of the Kubernetes meta API; the source
uses `meta.DeletePropagationBackground`. -/
inductive Propagation where
  | orphan
  | background
  | foreground
deriving DecidableEq, Repr

/-- `core.HostPathVolumeSource`: the host path backing a volume. -/
structure HostPathVolumeSource where
  path : String
deriving DecidableEq, Repr

/-- `core.Volume`: a named volume; only the host-path source is used by
the source file, so other sources are modelled by `none`. -/
structure Volume where
  name : String
  hostPath : Option HostPathVolumeSource
deriving DecidableEq, Repr

/-- `core.VolumeMount`. -/
structure VolumeMount where
  name : String
  mountPath : String
  readOnly : Bool
deriving DecidableEq, Repr

/-- `core.Container`, restricted to the fields the source sets. -/
structure Container where
  name : String
  image : String
  imagePullPolicy : String
  terminationMessagePolicy : String
  command : List String
  args : List String
  volumeMounts : List VolumeMount
deriving DecidableEq, Repr

/-- `core.PodSpec`, restricted to the fields the source sets. -/
structure PodSpec where
  restartPolicy : String
  hostPID : Bool
  volumes : List Volume
  containers : List Container
deriving DecidableEq, Repr

/-- `meta.ObjectMeta`, restricted to the fields the source sets. -/
structure ObjectMeta where
  name : String
  namespaceName : String
  labels : List (String × String)
deriving DecidableEq, Repr

/-- `core.PodTemplateSpec`. -/
structure PodTemplateSpec where
  metadata : ObjectMeta
  spec : PodSpec
deriving DecidableEq, Repr

/-- `batch.JobSpec`.  `backoffLimit` and `completions` are `*int32` in
the Go API, hence `Option`; `activeDeadlineSeconds` is `*int64`. -/
structure JobSpec where
  backoffLimit : Option Int
  completions : Option Int
  activeDeadlineSeconds : Option Nat
  template : PodTemplateSpec
deriving DecidableEq, Repr

/-- `batch.Job`. -/
structure Job where
  metadata : ObjectMeta
  spec : JobSpec
deriving DecidableEq, Repr

/-- Constant `kubeBenchContainerName` of the source. -/
def kubeBenchContainerName : String := "kube-bench"

/-- Constant `kubeBenchContainerImage` of the source. -/
def kubeBenchContainerImage : String := "aquasec/kube-bench:latest"

/-- `kube.NamespaceStarboard` is declared in `pkg/kube`, outside the
shown source file.  Its concrete value is irrelevant to every claim (it
is only copied into the descriptor and echoed back in the delete call),
so it is fixed here as an arbitrary constant. -/
def NamespaceStarboard : String := "starboard"

/-- Modelled from the spec: `scanners.Base.GetActiveDeadlineSeconds`
lives in `pkg/scanners`, which is not part of the shown source.  The
spec states the deadline field equals the configured timeout `T` when
`T > 0` and is unset when `T = 0`. -/
def GetActiveDeadlineSeconds (timeout : Nat) : Option Nat :=
  if 0 < timeout then some timeout else none

/-- `Scanner.prepareKubeBenchJob`, as a function of the freshly drawn
UUID `u` (the source calls `uuid.New().String()`) and of the configured
`ScanJobTimeout` (in seconds). -/
def prepareKubeBenchJob (u : String) (timeout : Nat) : Job :=
  { metadata :=
      { name := u
        namespaceName := NamespaceStarboard
        labels := [("app", "kube-bench")] }
    spec :=
      { backoffLimit := some 0
        completions := some 1
        activeDeadlineSeconds := GetActiveDeadlineSeconds timeout
        template :=
          { metadata :=
              { name := ""
                namespaceName := ""
                labels := [("app", "kube-bench")] }
            spec :=
              { restartPolicy := "Never"
                hostPID := true
                volumes :=
                  [ { name := "var-lib-etcd"
                      hostPath := some { path := "/var/lib/etcd" } },
                    { name := "var-lib-kubelet"
                      hostPath := some { path := "/var/lib/kubelet" } },
                    { name := "etc-systemd"
                      hostPath := some { path := "/etc/systemd" } },
                    { name := "etc-kubernetes"
                      hostPath := some { path := "/etc/kubernetes" } },
                    { name := "usr-bin"
                      hostPath := some { path := "/usr/bin" } } ]
                containers :=
                  [ { name := kubeBenchContainerName
                      image := kubeBenchContainerImage
                      imagePullPolicy := "Always"
                      terminationMessagePolicy := "FallbackToLogsOnError"
                      command := ["kube-bench"]
                      args := ["--json"]
                      volumeMounts :=
                        [ { name := "var-lib-etcd"
                            mountPath := "/var/lib/etcd"
                            readOnly := true },
                          { name := "var-lib-kubelet"
                            mountPath := "/var/lib/kubelet"
                            readOnly := true },
                          { name := "etc-systemd"
                            mountPath := "/etc/systemd"
                            readOnly := true },
                          { name := "etc-kubernetes"
                            mountPath := "/etc/kubernetes"
                            readOnly := true },
                          { name := "usr-bin"
                            mountPath := "/usr/local/mount-from-host/bin"
                            readOnly := true } ] } ] } } } }

/-- `core.Pod`, restricted to what `Scan` reads: the node assignment
(`Spec.NodeName`). -/
structure Pod where
  nodeName : String
deriving DecidableEq, Repr

/-- `core.Node`, keyed by its name; the remaining metadata is opaque to
the workflow and irrelevant to the claims. -/
structure Node where
  name : String
deriving DecidableEq, Repr

/-- `starboard.CISKubeBenchOutput`: the decoded benchmark report.  The
workflow only passes it through, so its JSON shape is abstracted to an
opaque payload; the Go zero value is the empty payload. -/
structure CISKubeBenchOutput where
  payload : String
deriving DecidableEq, Repr, Inhabited

/-- One cluster call performed during `Scan`, in program order.
`runJob` marks the return of `runner.New().Run` (the blocking
submit-and-wait of step 2); `deleteJob` records the identity and the
propagation policy passed to the delete call. -/
inductive Event where
  | runJob
  | getPod
  | getLogs
  | closeLogs
  | convert
  | getNode
  | deleteJob (name namespaceName : String) (propagation : Propagation)
deriving DecidableEq, Repr

/-- Outcomes of the external collaborators of one `Scan` invocation:
the job runner (`none` = the job ran to completion), the pod manager's
`GetPodByJob` and `GetPodLogs`, the converter, and the node lookup.
Caller cancellation surfaces as an error from whichever call the
cancelled context reaches first, so it is one of these injections. -/
structure ScanEnv where
  runResult : Option String
  podResult : Except String Pod
  logsResult : Except String Unit
  convertResult : Except String CISKubeBenchOutput
  nodeResult : Except String Node
deriving Repr

/-- What `Scan` hands back: the named return values
`(report, node, err)` of the Go function, plus the ordered trace of
cluster calls issued before returning. -/
structure ScanResult where
  report : CISKubeBenchOutput
  node : Option Node
  err : Option String
  trace : List Event
deriving DecidableEq, Repr

/-- `fmt.Errorf` with a stage name: the source wraps an error `e` as
the message of the stage followed by the underlying error. -/
def wrapErr (stage e : String) : String := stage ++ ": " ++ e

/-- The delete call issued by the deferred function of `Scan`: it names
the prepared job and uses `meta.DeletePropagationBackground`. -/
def deleteCall (job : Job) : Event :=
  .deleteJob job.metadata.name job.metadata.namespaceName .background

/-- `Scanner.Scan`, embedded over the collaborator outcomes `env`, the
drawn UUID `u` and the configured timeout.  Each return path lists its
events in the order the Go code produces them; Go defers run in reverse
registration order, so on paths past step 4 the stream close precedes
the job deletion, and the deletion defer exists only on paths reached
after the runner returned without error. -/
def scan (env : ScanEnv) (u : String) (timeout : Nat) : ScanResult :=
  let job := prepareKubeBenchJob u timeout
  match env.runResult with
  | some e =>
      { report := default, node := none
        err := some (wrapErr "running kube-bench job" e)
        trace := [.runJob] }
  | none =>
      match env.podResult with
      | .error e =>
          { report := default, node := none
            err := some (wrapErr "getting kube-bench pod" e)
            trace := [.runJob, .getPod, deleteCall job] }
      | .ok _pod =>
          match env.logsResult with
          | .error e =>
              { report := default, node := none
                err := some (wrapErr "getting logs" e)
                trace := [.runJob, .getPod, .getLogs, deleteCall job] }
          | .ok _ =>
              match env.convertResult with
              | .error e =>
                  { report := default, node := none
                    err := some (wrapErr "parsing CIS benchmark report" e)
                    trace := [.runJob, .getPod, .getLogs, .convert,
                              .closeLogs, deleteCall job] }
              | .ok rep =>
                  match env.nodeResult with
                  | .error e =>
                      { report := rep, node := none
                        err := some e
                        trace := [.runJob, .getPod, .getLogs, .convert,
                                  .getNode, .closeLogs, deleteCall job] }
                  | .ok nd =>
                      { report := rep, node := some nd
                        err := none
                        trace := [.runJob, .getPod, .getLogs, .convert,
                                  .getNode, .closeLogs, deleteCall job] }

/-- Recognizer for delete events in a trace. -/
def isDelete : Event → Bool
  | .deleteJob _ _ _ => true
  | _ => false

/-- Spec-side statement of the (amended) propagation policy, for
comparison with `scan`: the first failing stage determines the error;
failures of steps 2–5 are wrapped with the stage name, while a
node-resolution failure in step 6 is passed through unmodified. -/
def specWrappedErr (env : ScanEnv) : Option String :=
  match env.runResult with
  | some e => some (wrapErr "running kube-bench job" e)
  | none =>
    match env.podResult with
    | .error e => some (wrapErr "getting kube-bench pod" e)
    | .ok _ =>
      match env.logsResult with
      | .error e => some (wrapErr "getting logs" e)
      | .ok _ =>
        match env.convertResult with
        | .error e => some (wrapErr "parsing CIS benchmark report" e)
        | .ok _ =>
          match env.nodeResult with
          | .error e => some e
          | .ok _ => none

/-- Claim C2: for every configured timeout `T ≥ 0`, the descriptor
built by `prepareKubeBenchJob` has its active-deadline-seconds field
equal to `T` when `T > 0`, and unset when `T = 0`. -/
theorem C2_active_deadline (u : String) (T : Nat) :
    (0 < T → (prepareKubeBenchJob u T).spec.activeDeadlineSeconds = some T) ∧
    (T = 0 → (prepareKubeBenchJob u T).spec.activeDeadlineSeconds = none) := by
  constructor
  · intro h
    simp [prepareKubeBenchJob, GetActiveDeadlineSeconds, h]
  · intro h
    subst h
    rfl

/-- Witness for C2 at the concrete timeouts 5 and 0. -/
theorem C2_active_deadline_witness :
    (prepareKubeBenchJob "u" 5).spec.activeDeadlineSeconds = some 5 ∧
    (prepareKubeBenchJob "u" 0).spec.activeDeadlineSeconds = none :=
  ⟨(C2_active_deadline "u" 5).1 (by decide), (C2_active_deadline "u" 0).2 rfl⟩

/-- Claim C3: every descriptor built by `prepareKubeBenchJob` has
completions = 1, backoff limit = 0 and a pod template whose restart
policy is Never, so a failed run is terminal and never retried. -/
theorem C3_terminal_no_retry (u : String) (T : Nat) :
    (prepareKubeBenchJob u T).spec.completions = some 1 ∧
    (prepareKubeBenchJob u T).spec.backoffLimit = some 0 ∧
    (prepareKubeBenchJob u T).spec.template.spec.restartPolicy = "Never" :=
  ⟨rfl, rfl, rfl⟩

/-- Claim C4: every descriptor built by `prepareKubeBenchJob` declares
host-PID access and read-only host-path mounts for the etcd data
directory, the kubelet state directory, the systemd unit directory, the
kubernetes config directory and the host binary directory, the last one
mounted at a container path distinct from /usr/bin, and every listed
mount has its read-only flag set. -/
theorem C4_host_access (u : String) (T : Nat) :
    (prepareKubeBenchJob u T).spec.template.spec.hostPID = true ∧
    (⟨"var-lib-etcd", some ⟨"/var/lib/etcd"⟩⟩ : Volume)
      ∈ (prepareKubeBenchJob u T).spec.template.spec.volumes ∧
    (⟨"var-lib-kubelet", some ⟨"/var/lib/kubelet"⟩⟩ : Volume)
      ∈ (prepareKubeBenchJob u T).spec.template.spec.volumes ∧
    (⟨"etc-systemd", some ⟨"/etc/systemd"⟩⟩ : Volume)
      ∈ (prepareKubeBenchJob u T).spec.template.spec.volumes ∧
    (⟨"etc-kubernetes", some ⟨"/etc/kubernetes"⟩⟩ : Volume)
      ∈ (prepareKubeBenchJob u T).spec.template.spec.volumes ∧
    (⟨"usr-bin", some ⟨"/usr/bin"⟩⟩ : Volume)
      ∈ (prepareKubeBenchJob u T).spec.template.spec.volumes ∧
    (∃ c, (prepareKubeBenchJob u T).spec.template.spec.containers = [c] ∧
      (⟨"var-lib-etcd", "/var/lib/etcd", true⟩ : VolumeMount) ∈ c.volumeMounts ∧
      (⟨"var-lib-kubelet", "/var/lib/kubelet", true⟩ : VolumeMount) ∈ c.volumeMounts ∧
      (⟨"etc-systemd", "/etc/systemd", true⟩ : VolumeMount) ∈ c.volumeMounts ∧
      (⟨"etc-kubernetes", "/etc/kubernetes", true⟩ : VolumeMount) ∈ c.volumeMounts ∧
      (⟨"usr-bin", "/usr/local/mount-from-host/bin", true⟩ : VolumeMount) ∈ c.volumeMounts ∧
      "/usr/local/mount-from-host/bin" ≠ "/usr/bin" ∧
      c.volumeMounts.all (fun m => m.readOnly) = true) := by
  refine ⟨rfl, ?_, ?_, ?_, ?_, ?_, ⟨_, rfl, ?_, ?_, ?_, ?_, ?_, by decide, rfl⟩⟩ <;>
    simp [prepareKubeBenchJob]

/-- Claim C5: `prepareKubeBenchJob` uses the freshly drawn UUID
verbatim as the job identity, so any two invocations whose identity
draws differ produce distinct job names, whatever their timeouts. -/
theorem C5_fresh_identity (u₁ u₂ : String) (t₁ t₂ : Nat) (h : u₁ ≠ u₂) :
    (prepareKubeBenchJob u₁ t₁).metadata.name
      ≠ (prepareKubeBenchJob u₂ t₂).metadata.name := h

/-- Witness for C5 at two concrete distinct identity draws. -/
theorem C5_fresh_identity_witness :
    (prepareKubeBenchJob "5a8a5f9d" 0).metadata.name
      ≠ (prepareKubeBenchJob "e9c4b2aa" 7).metadata.name :=
  C5_fresh_identity "5a8a5f9d" "e9c4b2aa" 0 7 (by decide)

/-- Claim C1, counterexample: when the run coordinator reports an
execution failure (here the runner returns the error "job failed"), the
cleanup defer of `Scan` has not yet been registered, so the invocation
returns the wrapped run error with zero delete calls in its trace — not
the exactly one delete the claim requires on this exit path. -/
theorem C1_run_failure_skips_delete :
    (scan ⟨some "job failed", Except.ok ⟨"node-1"⟩, Except.ok (),
        Except.ok ⟨"report"⟩, Except.ok ⟨"node-1"⟩⟩ "u" 0).trace.countP isDelete = 0 ∧
    ¬ (scan ⟨some "job failed", Except.ok ⟨"node-1"⟩, Except.ok (),
        Except.ok ⟨"report"⟩, Except.ok ⟨"node-1"⟩⟩ "u" 0).trace.countP isDelete = 1 ∧
    (scan ⟨some "job failed", Except.ok ⟨"node-1"⟩, Except.ok (),
        Except.ok ⟨"report"⟩, Except.ok ⟨"node-1"⟩⟩ "u" 0).err
      = some "running kube-bench job: job failed" :=
  ⟨rfl, by decide, rfl⟩

/-- Claim C1, amended: on every invocation whose submit-and-wait step
returned without error, exactly one delete call is issued before `scan`
returns and it is the background-propagating delete of the submitted
job's identity, on every such exit path (pod-lookup error, stream-open
error, decoding error, node-lookup failure, success); when the
submit-and-wait step itself returns an error, no delete is issued. -/
theorem C1_amended_cleanup_once (env : ScanEnv) (u : String) (t : Nat) :
    (env.runResult = none →
      (scan env u t).trace.countP isDelete = 1 ∧
      (scan env u t).trace.getLast? = some (deleteCall (prepareKubeBenchJob u t))) ∧
    (∀ e, env.runResult = some e → (scan env u t).trace.countP isDelete = 0) := by
  rcases env with ⟨r, pd, lg, cv, nd⟩
  constructor
  · rintro rfl
    cases pd <;> cases lg <;> cases cv <;> cases nd <;> exact ⟨rfl, rfl⟩
  · rintro e rfl
    rfl

/-- Witness for the amended C1: one delete on a pod-lookup-failure run,
none on an execution-failure run. -/
theorem C1_amended_cleanup_once_witness :
    (scan ⟨none, Except.error "no pods found", Except.ok (), Except.ok ⟨"report"⟩,
        Except.ok ⟨"node-1"⟩⟩ "a1" 0).trace.countP isDelete = 1 ∧
    (scan ⟨none, Except.error "no pods found", Except.ok (), Except.ok ⟨"report"⟩,
        Except.ok ⟨"node-1"⟩⟩ "a1" 0).trace.getLast?
      = some (deleteCall (prepareKubeBenchJob "a1" 0)) ∧
    (scan ⟨some "deadline exceeded", Except.ok ⟨"node-1"⟩, Except.ok (),
        Except.ok ⟨"report"⟩, Except.ok ⟨"node-1"⟩⟩ "a2" 0).trace.countP isDelete = 0 :=
  ⟨((C1_amended_cleanup_once ⟨none, Except.error "no pods found", Except.ok (),
      Except.ok ⟨"report"⟩, Except.ok ⟨"node-1"⟩⟩ "a1" 0).1 rfl).1,
   ((C1_amended_cleanup_once ⟨none, Except.error "no pods found", Except.ok (),
      Except.ok ⟨"report"⟩, Except.ok ⟨"node-1"⟩⟩ "a1" 0).1 rfl).2,
   (C1_amended_cleanup_once ⟨some "deadline exceeded", Except.ok ⟨"node-1"⟩,
      Except.ok (), Except.ok ⟨"report"⟩, Except.ok ⟨"node-1"⟩⟩ "a2" 0).2
     "deadline exceeded" rfl⟩

/-- Claim C6, counterexample: when only the node lookup of step 6
fails, `Scan` returns the underlying error unmodified — there is no
stage name `stage` for which the returned error is the wrap
`stage ++ ": " ++ underlying`, contradicting the claim that every error
from steps 2–6 is wrapped with the failing stage's name. -/
theorem C6_counterexample :
    (scan ⟨none, Except.ok ⟨"node-1"⟩, Except.ok (), Except.ok ⟨"report"⟩,
        Except.error "node is gone"⟩ "u" 0).err = some "node is gone" ∧
    ¬ ∃ stage : String,
      (scan ⟨none, Except.ok ⟨"node-1"⟩, Except.ok (), Except.ok ⟨"report"⟩,
          Except.error "node is gone"⟩ "u" 0).err
        = some (wrapErr stage "node is gone") := by
  refine ⟨rfl, ?_⟩
  rintro ⟨stage, h⟩
  have he : (scan ⟨none, Except.ok ⟨"node-1"⟩, Except.ok (), Except.ok ⟨"report"⟩,
      Except.error "node is gone"⟩ "u" 0).err = some "node is gone" := rfl
  rw [he] at h
  have h1 : "node is gone" = wrapErr stage "node is gone" :=
    Option.some.inj h
  have h2 := congrArg String.length h1
  rw [wrapErr, String.length_append, String.length_append] at h2
  have h3 : (": ").length = 2 := rfl
  omega

/-- Claim C6, amended: every error from steps 2–5 (run coordination,
pod lookup, log-stream opening, report decoding) is returned wrapped
with the name of the failing stage, while the node-resolution error of
step 6 is returned to the caller unmodified; `scan`'s error output
equals the spec-side `specWrappedErr` on every collaborator outcome. -/
theorem C6_amended_stage_wrapping (env : ScanEnv) (u : String) (t : Nat) :
    (scan env u t).err = specWrappedErr env := by
  rcases env with ⟨r, pd, lg, cv, nd⟩
  cases r <;> cases pd <;> cases lg <;> cases cv <;> cases nd <;> rfl

/-- Claim C7: when the run succeeded but the pod lookup fails with an
underlying error `e` (for example zero matching pods), `Scan` returns
`e` wrapped with the pod-lookup stage name and the converter is never
invoked: no convert event appears in the trace. -/
theorem C7_pod_lookup_failure (env : ScanEnv) (u : String) (t : Nat) (e : String)
    (hrun : env.runResult = none) (hpod : env.podResult = Except.error e) :
    (scan env u t).err = some (wrapErr "getting kube-bench pod" e) ∧
    Event.convert ∉ (scan env u t).trace := by
  rcases env with ⟨r, pd, lg, cv, nd⟩
  cases hrun
  cases hpod
  refine ⟨rfl, ?_⟩
  have htr : (scan ⟨none, Except.error e, lg, cv, nd⟩ u t).trace
      = [Event.runJob, Event.getPod,
         Event.deleteJob u NamespaceStarboard Propagation.background] := rfl
  rw [htr]
  simp

/-- Witness for C7 at a concrete environment whose pod lookup fails. -/
theorem C7_pod_lookup_failure_witness :
    (scan ⟨none, Except.error "no pods found", Except.ok (), Except.ok ⟨"report"⟩,
        Except.ok ⟨"node-1"⟩⟩ "u" 3).err
      = some (wrapErr "getting kube-bench pod" "no pods found") ∧
    Event.convert ∉ (scan ⟨none, Except.error "no pods found", Except.ok (),
        Except.ok ⟨"report"⟩, Except.ok ⟨"node-1"⟩⟩ "u" 3).trace :=
  C7_pod_lookup_failure ⟨none, Except.error "no pods found", Except.ok (),
    Except.ok ⟨"report"⟩, Except.ok ⟨"node-1"⟩⟩ "u" 3 "no pods found" rfl rfl

/-- Claim C8: in every execution of `scan`, the first traced call is
the return of the blocking submit-and-wait step, and every delete event
lies in the remainder of the trace — so a deletion is never issued
before the run coordinator has reported a terminal state (or the
cancellation surfaced through it). -/
theorem C8_delete_after_run (env : ScanEnv) (u : String) (t : Nat)
    (nm ns : String) (pr : Propagation)
    (h : Event.deleteJob nm ns pr ∈ (scan env u t).trace) :
    (scan env u t).trace.head? = some Event.runJob ∧
    Event.deleteJob nm ns pr ∈ (scan env u t).trace.tail := by
  rcases env with ⟨r, pd, lg, cv, nd⟩
  cases r <;> cases pd <;> cases lg <;> cases cv <;> cases nd <;>
    exact ⟨rfl, List.mem_of_ne_of_mem (by simp) h⟩

/-- Witness for C8 on the all-success path. -/
theorem C8_delete_after_run_witness :
    (scan ⟨none, Except.ok ⟨"node-1"⟩, Except.ok (), Except.ok ⟨"report"⟩,
        Except.ok ⟨"node-1"⟩⟩ "u" 0).trace.head? = some Event.runJob ∧
    Event.deleteJob "u" NamespaceStarboard Propagation.background
      ∈ (scan ⟨none, Except.ok ⟨"node-1"⟩, Except.ok (), Except.ok ⟨"report"⟩,
          Except.ok ⟨"node-1"⟩⟩ "u" 0).trace.tail :=
  C8_delete_after_run ⟨none, Except.ok ⟨"node-1"⟩, Except.ok (), Except.ok ⟨"report"⟩,
    Except.ok ⟨"node-1"⟩⟩ "u" 0 "u" NamespaceStarboard Propagation.background (by decide)

/-- Claim C9: whenever the log stream was successfully opened (run,
pod lookup and stream opening all succeeded), exactly one close event
appears in the trace before `scan` returns — on the decoding-failure,
node-failure and success paths alike. -/
theorem C9_stream_closed (env : ScanEnv) (u : String) (t : Nat) (p : Pod)
    (hrun : env.runResult = none) (hpod : env.podResult = Except.ok p)
    (hlogs : env.logsResult = Except.ok ()) :
    (scan env u t).trace.countP (fun ev => ev == Event.closeLogs) = 1 := by
  rcases env with ⟨r, pd, lg, cv, nd⟩
  cases hrun
  cases hpod
  cases hlogs
  cases cv <;> cases nd <;> rfl

/-- Witness for C9 on the decoding-failure path. -/
theorem C9_stream_closed_witness :
    (scan ⟨none, Except.ok ⟨"node-1"⟩, Except.ok (), Except.error "bad json",
        Except.ok ⟨"node-1"⟩⟩ "u" 0).trace.countP (fun ev => ev == Event.closeLogs) = 1 :=
  C9_stream_closed ⟨none, Except.ok ⟨"node-1"⟩, Except.ok (), Except.error "bad json",
    Except.ok ⟨"node-1"⟩⟩ "u" 0 ⟨"node-1"⟩ rfl rfl rfl

/-- Claim C10: when decoding succeeds with report `rep` but the node
lookup fails with error `e`, `scan` returns the decoded `rep` itself
(not the zero-value report) together with the non-nil error `e`. -/
theorem C10_report_kept_on_node_failure (env : ScanEnv) (u : String) (t : Nat)
    (p : Pod) (rep : CISKubeBenchOutput) (e : String)
    (hrun : env.runResult = none) (hpod : env.podResult = Except.ok p)
    (hlogs : env.logsResult = Except.ok ())
    (hconv : env.convertResult = Except.ok rep)
    (hnode : env.nodeResult = Except.error e) :
    (scan env u t).report = rep ∧ (scan env u t).err = some e := by
  rcases env with ⟨r, pd, lg, cv, nd⟩
  cases hrun
  cases hpod
  cases hlogs
  cases hconv
  cases hnode
  exact ⟨rfl, rfl⟩

/-- Witness for C10 with a non-empty decoded report. -/
theorem C10_report_kept_on_node_failure_witness :
    (scan ⟨none, Except.ok ⟨"node-1"⟩, Except.ok (),
        Except.ok ⟨"section 1.1 PASS"⟩, Except.error "node not found"⟩ "u" 0).report
      = ⟨"section 1.1 PASS"⟩ ∧
    (scan ⟨none, Except.ok ⟨"node-1"⟩, Except.ok (),
        Except.ok ⟨"section 1.1 PASS"⟩, Except.error "node not found"⟩ "u" 0).err
      = some "node not found" :=
  C10_report_kept_on_node_failure ⟨none, Except.ok ⟨"node-1"⟩, Except.ok (),
    Except.ok ⟨"section 1.1 PASS"⟩, Except.error "node not found"⟩ "u" 0
    ⟨"node-1"⟩ ⟨"section 1.1 PASS"⟩ "node not found" rfl rfl rfl rfl rfl

end Starboard
